import Mathlib

/-!
Verification of the swipit repository's extraction pipeline
(`backend/functions/scripts/instagram_oembed.py`,
`backend/functions/scripts/instagram_scraper.py`, `fast_fetch_posts.py`).

The Python functions are shallowly embedded as executable Lean functions.
External collaborators (the HTTP fetch, `json.loads`, `html.unescape`) are
passed in as explicit inputs/parameters; everything else — in particular
every regular expression applied to the fetched payload — is translated
from the source.

Each regular expression in the source quantifies only single character
classes (`\s*`, `(\d+)`, `[^}]*`, `.+?`, …), so a pattern compiles to a
flat list of `RItem`s and a small backtracking matcher reproduces the
leftmost-match / greedy / lazy semantics of `re.search` and `re.findall`.
-/

namespace Swipit

/-- Single quote character (written via its code point). -/
def sq : Char := Char.ofNat 39

/-- `\s` (modelled on its ASCII range): space, tab, newline, CR, VT, FF. -/
def pySpace (c : Char) : Bool :=
  c = ' ' || c = Char.ofNat 9 || c = Char.ofNat 10 || c = Char.ofNat 13 ||
  c = Char.ofNat 11 || c = Char.ofNat 12

/-- `\d` (modelled on its ASCII range). -/
def pyDigit (c : Char) : Bool := c.isDigit

/-- `[A-Za-z0-9_-]` — the shortcode alphabet. -/
def wordDash (c : Char) : Bool := c.isAlpha || c.isDigit || c = '_' || c = '-'

/-- `[a-zA-Z0-9._]` — the username alphabet of the meta/title patterns. -/
def unameChar (c : Char) : Bool := c.isAlpha || c.isDigit || c = '.' || c = '_'

/-- `[a-zA-Z0-9_]` — the hashtag alphabet. -/
def hashChar (c : Char) : Bool := c.isAlpha || c.isDigit || c = '_'

/-- `[a-zA-Z0-9_.]` — the mention alphabet. -/
def mentionChar (c : Char) : Bool := c.isAlpha || c.isDigit || c = '_' || c = '.'

/-- `["\']` — either quote. -/
def anyQuote (c : Char) : Bool := c = '"' || c = sq

/-- `[^"\']`. -/
def notAnyQuote (c : Char) : Bool := !(c = '"' || c = sq)

/-- `[^"]`. -/
def notDq (c : Char) : Bool := c ≠ '"'

/-- `[^}]`. -/
def notCloseBrace (c : Char) : Bool := c ≠ Char.ofNat 125

/-- `.` with `re.DOTALL`. -/
def anyChar (_ : Char) : Bool := true

/-- `.` without `re.DOTALL` (anything but a newline). -/
def notNl (c : Char) : Bool := c ≠ Char.ofNat 10

/-- `[^>]`. -/
def notGt (c : Char) : Bool := c ≠ '>'

/-- `[^<]`. -/
def notLt (c : Char) : Bool := c ≠ '<'

/-- `[\/\?]`. -/
def slashOrQm (c : Char) : Bool := c = '/' || c = '?'

/-- `[^\/\?]`. -/
def notSlashQm (c : Char) : Bool := !(c = '/' || c = '?')

/-- `["“"]` — an opening double quote (straight or typographic). -/
def openDq (c : Char) : Bool := c = '"' || c = Char.ofNat 0x201C

/-- `["”"]` — a closing double quote (straight or typographic). -/
def closeDq (c : Char) : Bool := c = '"' || c = Char.ofNat 0x201D

/-- `[^"”"]`. -/
def notCloseDq (c : Char) : Bool := !(c = '"' || c = Char.ofNat 0x201D)

/-- Shorthand: the character list of a string literal. -/
def L (s : String) : List Char := s.data

/-- One item of a compiled regular expression.  Every quantified
subexpression of the source's patterns is a single character class, so a
whole pattern is a `List RItem`. -/
inductive RItem where
  /-- a literal, matched case-sensitively -/
  | lit (l : List Char)
  /-- a literal, matched case-insensitively (stored lowercase), for
      patterns compiled with `re.IGNORECASE` -/
  | lici (l : List Char)
  /-- exactly one character of the class -/
  | one (p : Char → Bool)
  /-- at most one character of the class, greedy (`?`) -/
  | opt (p : Char → Bool)
  /-- a class repetition: `req` selects `+` over `*`, `greedy` selects
      greedy over lazy -/
  | cls (p : Char → Bool) (req : Bool) (greedy : Bool)
  /-- a capturing group around a class repetition -/
  | grp (p : Char → Bool) (req : Bool) (greedy : Bool)

/-- Backtracking order for a class repetition that may take any width
from `lo` to `hi`: greedy tries the longest width first, lazy the
shortest (empty when `lo > hi`, i.e. a required class with no matching
character). -/
def widthCandidates (lo hi : Nat) (greedy : Bool) : List Nat :=
  let ws := List.range' lo (hi + 1 - lo)
  if greedy then ws.reverse else ws

/-- First success among the candidate widths. -/
def tryWidths {α : Type} (f : Nat → Option α) : List Nat → Option α
  | [] => none
  | k :: ks =>
    match f k with
    | some r => some r
    | none => tryWidths f ks

/-- Match a compiled pattern against a prefix of `s`.  Returns the
captured groups (in order) and the suffix after the match.  Class
repetitions backtrack exactly like the source engine, trying the widths
in the `widthCandidates` order. -/
def matchItems : List RItem → List Char → Option (List (List Char) × List Char)
  | [], s => some ([], s)
  | .lit l :: rest, s =>
    if s.take l.length = l then matchItems rest (s.drop l.length) else none
  | .lici l :: rest, s =>
    if (s.take l.length).map Char.toLower = l then matchItems rest (s.drop l.length)
    else none
  | .one p :: rest, s =>
    match s with
    | [] => none
    | c :: s' => if p c then matchItems rest s' else none
  | .opt p :: rest, s =>
    match s with
    | [] => matchItems rest []
    | c :: s' =>
      if p c then
        match matchItems rest s' with
        | some r => some r
        | none => matchItems rest (c :: s')
      else matchItems rest (c :: s')
  | .cls p req greedy :: rest, s =>
    tryWidths (fun k => matchItems rest (s.drop k))
      (widthCandidates (if req then 1 else 0) (s.takeWhile p).length greedy)
  | .grp p req greedy :: rest, s =>
    tryWidths
      (fun k =>
        match matchItems rest (s.drop k) with
        | some (caps, tail) => some (s.take k :: caps, tail)
        | none => none)
      (widthCandidates (if req then 1 else 0) (s.takeWhile p).length greedy)

/-- `re.search`: try the pattern at every position, leftmost match wins.
Returns the captures and the suffix following the match. -/
def searchFrom (its : List RItem) : List Char → Option (List (List Char) × List Char)
  | [] => matchItems its []
  | c :: s' =>
    match matchItems its (c :: s') with
    | some r => some r
    | none => searchFrom its s'

/-- First capture of the leftmost match, `re.search(...).group(1)`. -/
def searchCap1 (its : List RItem) (s : List Char) : Option (List Char) :=
  match searchFrom its s with
  | some (caps, _) => some (caps.headD [])
  | none => none

/-- `re.findall`: non-overlapping leftmost matches, scanning resumes after
each match.  (All embedded patterns consume at least one character; the
fuel only bounds the recursion.) -/
def findAllAux (its : List RItem) (s : List Char) (fuel : Nat) :
    List (List (List Char)) :=
  match fuel with
  | 0 => []
  | f + 1 =>
    match searchFrom its s with
    | none => []
    | some (caps, tail) => caps :: findAllAux its tail f

def findAll (its : List RItem) (s : List Char) : List (List (List Char)) :=
  findAllAux its s (s.length + 1)

/-- The `(author_id, username)` string pairs of a two-group `findall`
(`match[0]`, `match[1]` in the source). -/
def capPairs (capss : List (List (List Char))) : List (String × String) :=
  capss.map (fun caps => (String.mk (caps.headD []), String.mk ((caps.drop 1).headD [])))

/-! ## `extract_shortcode_from_url`

Source pattern: `/(?:p|reel)/([A-Za-z0-9_-]+)` — an alternation of two
flat patterns; at each position `p` is tried before `reel`. -/

/-- `/p/([A-Za-z0-9_-]+)`. -/
def shortcodePatP : List RItem := [.lit (L "/p/"), .grp wordDash true true]

/-- `/reel/([A-Za-z0-9_-]+)`. -/
def shortcodePatReel : List RItem := [.lit (L "/reel/"), .grp wordDash true true]

/-- Leftmost match of the alternation `/(?:p|reel)/([A-Za-z0-9_-]+)`. -/
def scanShortcode : List Char → Option (List Char)
  | [] => none
  | c :: s' =>
    match matchItems shortcodePatP (c :: s') with
    | some (caps, _) => some (caps.headD [])
    | none =>
      match matchItems shortcodePatReel (c :: s') with
      | some (caps, _) => some (caps.headD [])
      | none => scanShortcode s'

/-- `extract_shortcode_from_url` (instagram_oembed.py, lines 43-55):
return the first capture of `/(?:p|reel)/([A-Za-z0-9_-]+)`, or none. -/
def extract_shortcode_from_url (url : String) : Option String :=
  (scanShortcode url.data).map String.mk

/-- Substring test (`in` on Python strings); used to state that a URL has
no `/p/` or `/reel/` segment. -/
def containsSub (needle : List Char) : List Char → Bool
  | [] => needle.isEmpty
  | c :: rest =>
    (decide ((c :: rest).take needle.length = needle)) || containsSub needle rest

/-! ## JSON values and the Python data-model operations the source uses

`json.loads` itself is an external library call; it is passed to the
pipeline as a function `parse : String → Option Json` (`none` models
`json.JSONDecodeError`).  The navigation performed on its result is
embedded below, including which operations raise which (caught or
uncaught) exception. -/

inductive Json where
  | null
  | bool (b : Bool)
  | num (n : Int)
  | str (s : String)
  | arr (xs : List Json)
  | obj (fields : List (String × Json))

/-- Exceptions the navigation code can raise.  `get_reel_creator` catches
`json.JSONDecodeError` and `KeyError` around the shared-data walk; every
other exception reaches the outer handler. -/
inductive PyErr where
  | keyError
  | typeError
  | attrError
  | indexError
deriving DecidableEq

mutual

/-- Python `repr` of a JSON value (element rendering inside containers;
string escaping is not reproduced). -/
def pyRepr : Json → String
  | .null => "None"
  | .bool b => if b then "True" else "False"
  | .num n => toString n
  | .str s => String.mk (sq :: s.data) ++ String.mk [sq]
  | .arr xs => "[" ++ String.intercalate ", " (pyReprList xs) ++ "]"
  | .obj fs => "\x7b" ++ String.intercalate ", " (pyReprFields fs) ++ "\x7d"

def pyReprList : List Json → List String
  | [] => []
  | j :: js => pyRepr j :: pyReprList js

def pyReprFields : List (String × Json) → List String
  | [] => []
  | (k, v) :: fs =>
    (String.mk (sq :: k.data) ++ String.mk [sq] ++ ": " ++ pyRepr v) :: pyReprFields fs

end

/-- Python `str()` of a JSON value (used by f-string interpolation). -/
def pyStr : Json → String
  | .str s => s
  | j => pyRepr j

/-- Python truthiness of a JSON value. -/
def pyTruthy : Json → Bool
  | .null => false
  | .bool b => b
  | .num n => n != 0
  | .str s => s != ""
  | .arr xs => !xs.isEmpty
  | .obj fs => !fs.isEmpty

/-- `x.get(k, d)`: dictionary lookup with default; any non-dict raises
`AttributeError` (uncaught in the source). -/
def jGet (j : Json) (k : String) (d : Json) : Except PyErr Json :=
  match j with
  | .obj fields =>
    match fields.lookup k with
    | some v => .ok v
    | none => .ok d
  | _ => .error .attrError

/-- `k in x` for a string `k`: key test on dicts, membership on lists
(Python `==` with a string), substring test on strings, `TypeError`
otherwise. -/
def jContains (j : Json) (k : String) : Except PyErr Bool :=
  match j with
  | .obj fields => .ok (fields.any (fun f => f.1 == k))
  | .arr xs =>
    .ok (xs.any (fun x => match x with | .str s => s == k | _ => false))
  | .str s => .ok (containsSub k.data s.data)
  | _ => .error .typeError

/-- `x[k]` for a string key: `KeyError` when missing, `TypeError` on
non-dicts. -/
def jItemStr (j : Json) (k : String) : Except PyErr Json :=
  match j with
  | .obj fields =>
    match fields.lookup k with
    | some v => .ok v
    | none => .error .keyError
  | _ => .error .typeError

/-- `x[0]`: first element of a list, first character of a string
(`IndexError` when empty), `KeyError` on dicts (integer key), `TypeError`
otherwise. -/
def jItem0 (j : Json) : Except PyErr Json :=
  match j with
  | .arr xs =>
    match xs with
    | x :: _ => .ok x
    | [] => .error .indexError
  | .str s =>
    match s.data with
    | c :: _ => .ok (.str (String.mk [c]))
    | [] => .error .indexError
  | .obj _ => .error .keyError
  | _ => .error .typeError

/-- `len(x)`: `TypeError` on numbers, booleans and `None`. -/
def jLen (j : Json) : Except PyErr Nat :=
  match j with
  | .str s => .ok s.length
  | .arr xs => .ok xs.length
  | .obj fs => .ok fs.length
  | _ => .error .typeError

/-- Opening brace character. -/
def ob : Char := Char.ofNat 123

/-- Closing brace character. -/
def cb : Char := Char.ofNat 125

/-- `"` as a class (for the optional quotes in `"?(\d+)"?`). -/
def dqChar (c : Char) : Bool := c = '"'

/-- Python `str.strip()` (whitespace modelled by `pySpace`). -/
def pyStrip (s : String) : String :=
  String.mk (((s.data.dropWhile pySpace).reverse.dropWhile pySpace).reverse)

/-- Python `str.lower()` (ASCII range). -/
def pyLower (s : String) : String := String.mk (s.data.map Char.toLower)

/-! ## The compiled patterns of `get_reel_creator`
(instagram_oembed.py, lines 57-361).  Comments quote the source regex. -/

/-- `<meta\s+property=["\']og:image["\']\s+content=["\']([^"\']+)["\']`, IGNORECASE. -/
def thumbPatOg : List RItem :=
  [.lici (L "<meta"), .cls pySpace true true, .lici (L "property="), .one anyQuote,
   .lici (L "og:image"), .one anyQuote, .cls pySpace true true, .lici (L "content="),
   .one anyQuote, .grp notAnyQuote true true, .one anyQuote]

/-- `<meta\s+name=["\']twitter:image["\']\s+content=["\']([^"\']+)["\']`, IGNORECASE. -/
def thumbPatTw : List RItem :=
  [.lici (L "<meta"), .cls pySpace true true, .lici (L "name="), .one anyQuote,
   .lici (L "twitter:image"), .one anyQuote, .cls pySpace true true, .lici (L "content="),
   .one anyQuote, .grp notAnyQuote true true, .one anyQuote]

/-- `<link\s+rel=["\']image_src["\']\s+href=["\']([^"\']+)["\']`, IGNORECASE. -/
def thumbPatImgSrc : List RItem :=
  [.lici (L "<link"), .cls pySpace true true, .lici (L "rel="), .one anyQuote,
   .lici (L "image_src"), .one anyQuote, .cls pySpace true true, .lici (L "href="),
   .one anyQuote, .grp notAnyQuote true true, .one anyQuote]

/-- First capture of the first pattern in the list that matches
(a `for pattern: search; if match: break` loop in the source). -/
def firstSearchCap (pats : List (List RItem)) (c : List Char) : Option (List Char) :=
  match pats with
  | [] => none
  | p :: rest =>
    match searchCap1 p c with
    | some r => some r
    | none => firstSearchCap rest c

/-- The thumbnail loop (lines 105-116): `og:image`, then `twitter:image`,
then `image_src`; first matching pattern wins. -/
def findThumbnail (c : List Char) : Option String :=
  match firstSearchCap [thumbPatOg, thumbPatTw, thumbPatImgSrc] c with
  | some t => some (String.mk t)
  | none => none

/-- `window\._sharedData\s*=\s*({.+?});` with DOTALL.  The captured group
spans the braces; it is reconstructed as `ob :: inner ++ [cb]` at the
`json.loads` call site. -/
def sharedDataPat : List RItem :=
  [.lit (L "window._sharedData"), .cls pySpace false true, .lit (L "="),
   .cls pySpace false true, .lit [ob], .grp anyChar true false, .lit [cb, ';']]

/-- script_patterns[1]:
`"owner":\s*{\s*"id":\s*"(\d+)"[^}]*"username":\s*"([^"]+)"`. -/
def scriptPat1 : List RItem :=
  [.lit (L "\"owner\":"), .cls pySpace false true, .lit [ob], .cls pySpace false true,
   .lit (L "\"id\":"), .cls pySpace false true, .lit (L "\""), .grp pyDigit true true,
   .lit (L "\""), .cls notCloseBrace false true, .lit (L "\"username\":"),
   .cls pySpace false true, .lit (L "\""), .grp notDq true true, .lit (L "\"")]

/-- script_patterns[2]:
`"user":\s*{\s*"pk":\s*"?(\d+)"?[^}]*"username":\s*"([^"]+)"`. -/
def scriptPat2 : List RItem :=
  [.lit (L "\"user\":"), .cls pySpace false true, .lit [ob], .cls pySpace false true,
   .lit (L "\"pk\":"), .cls pySpace false true, .opt dqChar, .grp pyDigit true true,
   .opt dqChar, .cls notCloseBrace false true, .lit (L "\"username\":"),
   .cls pySpace false true, .lit (L "\""), .grp notDq true true, .lit (L "\"")]

/-- looser_patterns[0]: `"pk":\s*"?(\d+)"?[^}]*"username":\s*"([^"]+)"`, IGNORECASE. -/
def looserPat0 : List RItem :=
  [.lici (L "\"pk\":"), .cls pySpace false true, .opt dqChar, .grp pyDigit true true,
   .opt dqChar, .cls notCloseBrace false true, .lici (L "\"username\":"),
   .cls pySpace false true, .lit (L "\""), .grp notDq true true, .lit (L "\"")]

/-- looser_patterns[1]: `"id":\s*"(\d+)"[^}]*"username":\s*"([^"]+)"`, IGNORECASE. -/
def looserPat1 : List RItem :=
  [.lici (L "\"id\":"), .cls pySpace false true, .lit (L "\""), .grp pyDigit true true,
   .lit (L "\""), .cls notCloseBrace false true, .lici (L "\"username\":"),
   .cls pySpace false true, .lit (L "\""), .grp notDq true true, .lit (L "\"")]

/-- looser_patterns[2]: `instagram\.com\/([^\/\?]+)[\/\?].*"pk"[^}]*"(\d+)"`,
IGNORECASE (`.` does not match a newline: no DOTALL). -/
def looserPat2 : List RItem :=
  [.lici (L "instagram.com/"), .grp notSlashQm true true, .one slashOrQm,
   .cls notNl false true, .lici (L "\"pk\""), .cls notCloseBrace false true,
   .lit (L "\""), .grp pyDigit true true, .lit (L "\"")]

/-- `<meta\s+property=["\']og:title["\']\s+content=["\']([^"\']+)["\']`, IGNORECASE. -/
def metaPatOgTitle : List RItem :=
  [.lici (L "<meta"), .cls pySpace true true, .lici (L "property="), .one anyQuote,
   .lici (L "og:title"), .one anyQuote, .cls pySpace true true, .lici (L "content="),
   .one anyQuote, .grp notAnyQuote true true, .one anyQuote]

/-- `<meta\s+property=["\']og:description["\']\s+content=["\']([^"\']+)["\']`, IGNORECASE. -/
def metaPatOgDesc : List RItem :=
  [.lici (L "<meta"), .cls pySpace true true, .lici (L "property="), .one anyQuote,
   .lici (L "og:description"), .one anyQuote, .cls pySpace true true, .lici (L "content="),
   .one anyQuote, .grp notAnyQuote true true, .one anyQuote]

/-- `<meta\s+name=["\']description["\']\s+content=["\']([^"\']+)["\']`, IGNORECASE. -/
def metaPatNameDesc : List RItem :=
  [.lici (L "<meta"), .cls pySpace true true, .lici (L "name="), .one anyQuote,
   .lici (L "description"), .one anyQuote, .cls pySpace true true, .lici (L "content="),
   .one anyQuote, .grp notAnyQuote true true, .one anyQuote]

/-- `<meta\s+property=["\']twitter:title["\']\s+content=["\']([^"\']+)["\']`, IGNORECASE. -/
def metaPatTwTitle : List RItem :=
  [.lici (L "<meta"), .cls pySpace true true, .lici (L "property="), .one anyQuote,
   .lici (L "twitter:title"), .one anyQuote, .cls pySpace true true, .lici (L "content="),
   .one anyQuote, .grp notAnyQuote true true, .one anyQuote]

/-- `<meta\s+property=["\']twitter:description["\']\s+content=["\']([^"\']+)["\']`, IGNORECASE. -/
def metaPatTwDesc : List RItem :=
  [.lici (L "<meta"), .cls pySpace true true, .lici (L "property="), .one anyQuote,
   .lici (L "twitter:description"), .one anyQuote, .cls pySpace true true,
   .lici (L "content="), .one anyQuote, .grp notAnyQuote true true, .one anyQuote]

/-- `:\s*["“"]([^"”"]*)["”"]` — the quoted-caption extractor applied to the
HTML-unescaped meta content. -/
def quotedCaptionPat : List RItem :=
  [.lit (L ":"), .cls pySpace false true, .one openDq, .grp notCloseDq false true,
   .one closeDq]

/-- `<title[^>]*>([^<]+)</title>`, IGNORECASE. -/
def titleTagPat : List RItem :=
  [.lici (L "<title"), .cls notGt false true, .lit (L ">"), .grp notLt true true,
   .lici (L "</title>")]

/-- Title pattern `^(.+?)\s+on Instagram` (anchored, case-sensitive). -/
def titlePat1 : List RItem :=
  [.grp notNl true false, .cls pySpace true true, .lit (L "on Instagram")]

/-- Title pattern `Instagram post by (.+?)\s` (case-sensitive). -/
def titlePat2 : List RItem :=
  [.lit (L "Instagram post by "), .grp notNl true false, .one pySpace]

/-- Title pattern `@([a-zA-Z0-9._]+)` (case-sensitive). -/
def titlePat3 : List RItem := [.lit (L "@"), .grp unameChar true true]

/-- Title pattern `"([^"]+)"\s+•.*Instagram` (case-sensitive). -/
def titlePat4 : List RItem :=
  [.lit (L "\""), .grp notDq true true, .lit (L "\""), .cls pySpace true true,
   .lit (L "•"), .cls notNl false true, .lit (L "Instagram")]

/-- Meta username pattern `@([a-zA-Z0-9._]+)`, IGNORECASE. -/
def usernamePat1 : List RItem := [.lit (L "@"), .grp unameChar true true]

/-- Meta username pattern `([a-zA-Z0-9._]+)\s+on Instagram`, IGNORECASE. -/
def usernamePat2 : List RItem :=
  [.grp unameChar true true, .cls pySpace true true, .lici (L "on instagram")]

/-- Meta username pattern `Instagram post by ([a-zA-Z0-9._]+)`, IGNORECASE. -/
def usernamePat3 : List RItem :=
  [.lici (L "instagram post by "), .grp unameChar true true]

/-! ## The shared-data walk (lines 121-164) -/

/-- Outcome of the `window._sharedData` strategy. -/
inductive SDOut where
  /-- both `username` and `author_id` truthy: return the record -/
  | hit (username author_id caption : Json)
  /-- the `elif username and not author_id` branch: logged, falls through -/
  | contFoundNoId
  /-- no usable data (or a caught exception): falls through -/
  | cont
  /-- an uncaught exception: the outer handler returns `Parsing failed` -/
  | abort (e : PyErr)

/-- Route an exception of the walk: `KeyError` (and, at the caller,
`json.JSONDecodeError`) is caught and falls through; anything else
escapes to the outer handler. -/
def sdErr (e : PyErr) : SDOut :=
  if e = .keyError then .cont else .abort e

/-- The key walk of lines 127-160, operation by operation. -/
def navShared (shared_data : Json) : SDOut :=
  match jGet shared_data "entry_data" (.obj []) with
  | .error e => sdErr e
  | .ok entry_data =>
    match jContains entry_data "PostPage" with
    | .error e => sdErr e
    | .ok false => .cont
    | .ok true =>
      match jItemStr entry_data "PostPage" with
      | .error e => sdErr e
      | .ok posts =>
        if pyTruthy posts then
          match jLen posts with
          | .error e => sdErr e
          | .ok n =>
            if n > 0 then
              match jItem0 posts with
              | .error e => sdErr e
              | .ok post =>
                match jGet post "graphql" (.obj []) with
                | .error e => sdErr e
                | .ok g =>
                  match jGet g "shortcode_media" (.obj []) with
                  | .error e => sdErr e
                  | .ok media =>
                    match jGet media "owner" (.obj []) with
                    | .error e => sdErr e
                    | .ok owner =>
                      match jGet owner "username" (.str "") with
                      | .error e => sdErr e
                      | .ok username =>
                        match jGet owner "id" (.str "") with
                        | .error e => sdErr e
                        | .ok author_id =>
                          if pyTruthy username && pyTruthy author_id then
                            match jGet media "edge_media_to_caption" (.obj []) with
                            | .error e => sdErr e
                            | .ok emc =>
                              match jGet emc "edges" (.arr [.obj []]) with
                              | .error e => sdErr e
                              | .ok edges =>
                                match jItem0 edges with
                                | .error e => sdErr e
                                | .ok e0 =>
                                  match jGet e0 "node" (.obj []) with
                                  | .error e => sdErr e
                                  | .ok node =>
                                    match jGet node "text" (.str "") with
                                    | .error e => sdErr e
                                    | .ok text => .hit username author_id text
                          else if pyTruthy username && !pyTruthy author_id then
                            .contFoundNoId
                          else .cont
            else .cont
        else .cont

/-- The whole `window._sharedData` strategy: regex search, `json.loads`
(the `parse` collaborator; `none` models `JSONDecodeError`, caught), then
the walk. -/
def sharedStep (parse : String → Option Json) (c : List Char) : SDOut :=
  match searchCap1 sharedDataPat c with
  | some inner =>
    match parse (String.mk (ob :: inner ++ [cb])) with
    | some j => navShared j
    | none => .cont
  | none => .cont

/-! ## The script-pattern and looser-pattern strategies (lines 166-298) -/

/-- The per-match guard of the script-pattern loop:
`if author_id and username:`. -/
def scriptGuard (pr : String × String) : Bool := pr.1 != "" && pr.2 != ""

/-- The per-match guard of the looser-pattern loop:
`if author_id and username and username.lower() != 'instagram':`. -/
def looserGuard (pr : String × String) : Bool :=
  pr.1 != "" && pr.2 != "" && pyLower pr.2 != "instagram"

/-- script_patterns loop: patterns 0 and 3 are scanned by the source but
every one of their matches is discarded (pattern 0 by the
`pattern == script_patterns[1] or pattern == script_patterns[2]`
selection, pattern 3 by the `isinstance(match, tuple)` check), so only
patterns 1 and 2 can produce a result; within a pattern the first match
passing the guard wins. -/
def scriptPairsGood (c : List Char) : Option (String × String) :=
  match (capPairs (findAll scriptPat1 c)).find? scriptGuard with
  | some pr => some pr
  | none => (capPairs (findAll scriptPat2 c)).find? scriptGuard

/-- looser_patterns loop: all three patterns pass the
`'pk' in pattern or '"id"' in pattern` selection (for pattern 2 this makes
`author_id` the URL segment and `username` the digits). -/
def looserPairsGood (c : List Char) : Option (String × String) :=
  match (capPairs (findAll looserPat0 c)).find? looserGuard with
  | some pr => some pr
  | none =>
    match (capPairs (findAll looserPat1 c)).find? looserGuard with
    | some pr => some pr
    | none => (capPairs (findAll looserPat2 c)).find? looserGuard

/-- Caption/title recovery from meta tags once an (id, username) pair is
found (lines 190-213 and 256-278): first matching meta pattern supplies
`title_text`; the quoted part of its HTML-unescaped content supplies
`caption_text` (stripped in the looser-pattern variant). -/
def metaTitleCaption (unescape : String → String) (pats : List (List RItem))
    (strip : Bool) (c : List Char) : String × String :=
  match firstSearchCap pats c with
  | none => ("", "")
  | some mc =>
    let title_text := String.mk mc
    match searchCap1 quotedCaptionPat (unescape title_text).data with
    | some cap =>
      (if strip then pyStrip (String.mk cap) else String.mk cap, title_text)
    | none => ("", title_text)

/-! ## The metadata-only and title fallbacks (lines 300-353) -/

/-- The username scan over one meta content (lines 317-329): a username
that is nonempty and not (case-insensitively) `instagram`. -/
def usernameFromText (ct : List Char) : Bool :=
  [usernamePat1, usernamePat2, usernamePat3].any (fun up =>
    match searchCap1 up ct with
    | some un => String.mk un != "" && pyLower (String.mk un) != "instagram"
    | none => false)

/-- Method 3 (meta tags): some meta pattern matches and its content holds
a username-like token other than the brand name. -/
def metaStrategyHit (c : List Char) : Bool :=
  [metaPatOgTitle, metaPatOgDesc, metaPatNameDesc, metaPatTwTitle, metaPatTwDesc].any
    (fun mp =>
      match searchCap1 mp c with
      | some ct => usernameFromText ct
      | none => false)

/-- One title pattern (lines 345-353): strip the capture, delete every
character outside `[a-zA-Z0-9._]` (the `re.sub`), succeed if nonempty.
`titlePat1` is anchored (`^`), so it is matched only at the start. -/
def titleHitOne (tt : List Char) (pat : List RItem) (anchored : Bool) : Bool :=
  let cand : Option (List Char) :=
    if anchored then
      match matchItems pat tt with
      | some (caps, _) => some (caps.headD [])
      | none => none
    else searchCap1 pat tt
  match cand with
  | some g => String.mk ((pyStrip (String.mk g)).data.filter unameChar) != ""
  | none => false

/-- Method 3 (page title): the `<title>` text holds a username-like token. -/
def titleStrategyHit (c : List Char) : Bool :=
  match searchCap1 titleTagPat c with
  | some tt =>
    titleHitOne tt titlePat1 true || titleHitOne tt titlePat2 false ||
    titleHitOne tt titlePat3 false || titleHitOne tt titlePat4 false
  | none => false

/-! ## The result record and `get_reel_creator` -/

/-- Python `str()` of an optional string (f-string interpolation of a
possibly-`None` shortcode). -/
def optStr : Option String → String
  | some s => s
  | none => "None"

/-- The success dictionary returned by all three extraction paths
(lines 140-158, 215-233, 280-298 share this exact shape). -/
structure ReelRecord where
  author_name : Json
  username : Json
  author_id : Json
  profile_link : String
  instagram_id : Option String
  shortcode : Option String
  caption : Json
  title : Json
  author_url : String
  thumbnail_url : Option String
  post_link : String
  embed_link : String
  html_embed : String
  provider_name : String
  provider_url : String
  version : String
  type : String

/-- The fixed embed snippet parameterized by the source URL. -/
def embedHtmlOf (reel_url : String) : String :=
  "<blockquote class=\"instagram-media\" data-instgrm-permalink=\"" ++ reel_url ++
  "\"><a href=\"" ++ reel_url ++ "\">Instagram post</a></blockquote>" ++
  "<script async src=\"//www.instagram.com/embed.js\"></script>"

def mkReelRecord (reel_url : String) (shortcode : Option String)
    (thumb : Option String) (username author_id caption title : Json) : ReelRecord :=
  { author_name := username
    username := username
    author_id := author_id
    profile_link := "https://www.instagram.com/" ++ pyStr username ++ "/"
    instagram_id := shortcode
    shortcode := shortcode
    caption := caption
    title := title
    author_url := "https://www.instagram.com/" ++ pyStr username ++ "/"
    thumbnail_url := thumb
    post_link := reel_url
    embed_link := "https://www.instagram.com/p/" ++ optStr shortcode ++ "/embed/"
    html_embed := embedHtmlOf reel_url
    provider_name := "Instagram"
    provider_url := "https://www.instagram.com"
    version := "1.0"
    type := "rich" }

/-- Result of `get_reel_creator`: the record, or an `{'error': ...}` dict. -/
inductive ReelResult where
  | ok (r : ReelRecord)
  | error (msg : String)

/-- `str(e)` of an uncaught exception (text abstracted by exception kind). -/
def pyErrMsg : PyErr → String
  | .keyError => "KeyError"
  | .typeError => "TypeError"
  | .attrError => "AttributeError"
  | .indexError => "IndexError"

/-- `get_reel_creator` (lines 57-361) on an already-fetched page.
The HTTP fetch is the external collaborator that produced `content`;
`parse` stands for `json.loads`, `unescape` for `html.unescape`.
The oEmbed helper is NOT consulted: lines 66-69 are commented out in the
source. -/
def get_reel_creator (reel_url content : String) (parse : String → Option Json)
    (unescape : String → String) : ReelResult :=
  let shortcode := extract_shortcode_from_url reel_url
  let c := content.data
  let thumbnail_url := findThumbnail c
  match sharedStep parse c with
  | .abort e => .error ("Parsing failed: " ++ pyErrMsg e)
  | .hit un aid cap => .ok (mkReelRecord reel_url shortcode thumbnail_url un aid cap cap)
  | _ =>
    match scriptPairsGood c with
    | some (aid, un) =>
      let ct := metaTitleCaption unescape [metaPatOgTitle, metaPatOgDesc, metaPatNameDesc] false c
      .ok (mkReelRecord reel_url shortcode thumbnail_url (.str un) (.str aid)
            (.str ct.1) (.str ct.2))
    | none =>
      match looserPairsGood c with
      | some (aid, un) =>
        let ct := metaTitleCaption unescape [metaPatOgTitle, metaPatOgDesc] true c
        .ok (mkReelRecord reel_url shortcode thumbnail_url (.str un) (.str aid)
              (.str ct.1) (.str ct.2))
      | none =>
        if metaStrategyHit c then
          .error "Could not extract author ID from Instagram post"
        else if titleStrategyHit c then
          .error "Could not extract author ID from Instagram post"
        else .error "Could not extract creator information"

/-- `extract_from_embed_url` (lines 14-41): on HTTP 200 return the parsed
oEmbed JSON unchanged; on any other status, a request error, or a JSON
parse error return none. -/
def extract_from_embed_url (response : Except Unit (Nat × Option Json)) : Option Json :=
  match response with
  | .error _ => none
  | .ok (status, body) => if status = 200 then body else none

/-! ## `analyze_content` (lines 363-392) -/

/-- Non-overlapping leftmost matches of `pfx` followed by one or more
class characters (`re.findall` of `#[a-zA-Z0-9_]+` / `@[a-zA-Z0-9_.]+`).
Every step consumes at least one character, so `s.length` fuel suffices. -/
def findTokensF (pfx : Char) (cl : Char → Bool) : Nat → List Char → List (List Char)
  | 0, _ => []
  | _ + 1, [] => []
  | fuel + 1, c :: rest =>
    if c = pfx then
      let run := rest.takeWhile cl
      if run.isEmpty then findTokensF pfx cl fuel rest
      else (c :: run) :: findTokensF pfx cl fuel (rest.drop run.length)
    else findTokensF pfx cl fuel rest

def findTokens (pfx : Char) (cl : Char → Bool) (s : List Char) : List (List Char) :=
  findTokensF pfx cl s.length s

/-- `len(clean_caption.split())`: number of maximal nonblank runs
(again with length fuel for structural recursion). -/
def countWordsF : Nat → List Char → Nat
  | 0, _ => 0
  | _ + 1, [] => 0
  | fuel + 1, c :: rest =>
    if pySpace c then countWordsF fuel rest
    else countWordsF fuel (rest.dropWhile (fun ch => !pySpace ch)) + 1

def countWords (s : List Char) : Nat := countWordsF s.length s

/-- The analysis dictionary: a key is present (`some`) exactly when the
source assigns it. -/
structure Analysis where
  hashtags : Option (List String)
  hashtag_count : Option Nat
  mentions : Option (List String)
  mention_count : Option Nat
  character_count : Option Nat
  word_count : Option Nat
  line_count : Option Nat

/-- `analyze_content`: the caption comes from the record's `title` field;
nothing is computed when it is empty (falsy).  `unescape` stands for
`html.unescape`. -/
def analyze_content (unescape : String → String) (caption : String) : Analysis :=
  if caption != "" then
    let clean_caption := unescape caption
    let hashtags := findTokens '#' hashChar clean_caption.data
    let mentions := findTokens '@' mentionChar clean_caption.data
    { hashtags :=
        if !hashtags.isEmpty then some (hashtags.map (fun t => String.mk (t.drop 1)))
        else none
      hashtag_count := if !hashtags.isEmpty then some hashtags.length else none
      mentions :=
        if !mentions.isEmpty then some (mentions.map (fun t => String.mk (t.drop 1)))
        else none
      mention_count := if !mentions.isEmpty then some mentions.length else none
      character_count := some clean_caption.length
      word_count := some (countWords clean_caption.data)
      line_count := some (clean_caption.data.count (Char.ofNat 10) + 1) }
  else
    { hashtags := none, hashtag_count := none, mentions := none, mention_count := none,
      character_count := none, word_count := none, line_count := none }

/-! ## `scrape_instagram_profile` (instagram_scraper.py, lines 253-480)

The instaloader library is the external paging collaborator: a profile
fetch outcome and the sequence of post-processing outcomes are inputs.
Authentication, logging, and sleeping are I/O and do not affect the
returned data. -/

/-- The instaloader `Profile` attributes the source reads. -/
structure IGProfile where
  userid : Int
  username : String
  full_name : String
  biography : String
  followers : Int
  followees : Int
  mediacount : Int
  is_private : Bool
  is_verified : Bool
  external_url : Option String
  profile_pic_url : String

/-- The `profile_data` dictionary (lines 356-368). -/
structure ProfileData where
  instagram_user_id : String
  username : String
  full_name : String
  biography : String
  follower_count : Int
  following_count : Int
  media_count : Int
  is_private : Bool
  is_verified : Bool
  external_url : Option String
  profile_pic_url : String

def extract_profile_data (p : IGProfile) : ProfileData :=
  { instagram_user_id := toString p.userid
    username := p.username
    full_name := p.full_name
    biography := p.biography
    follower_count := p.followers
    following_count := p.followees
    media_count := p.mediacount
    is_private := p.is_private
    is_verified := p.is_verified
    external_url := p.external_url
    profile_pic_url := p.profile_pic_url }

/-- The instaloader `Post` attributes read by `extract_post_data`
(`getattr` defaults folded into the field types; `date_utc` carries the
already-ISO-formatted string when present). -/
structure IGPost where
  mediaid : Int
  shortcode : String
  typename : String
  url : String
  caption : Option String
  likes : Int
  comments : Int
  date_utc : Option String
  is_video : Bool
  is_pinned : Bool
  is_sponsored : Bool
  accessibility_caption : String
  owner_username : String
  owner_id : Int
  caption_hashtags : List String
  caption_mentions : List String
  video_duration : Int
  video_view_count : Int
  video_url : String
  location : Option (String × String)
  tagged_users : List String

/-- The post dictionary (lines 265-311).  The video keys exist only when
`is_video` (the `post_data.update` under `if post.is_video:`), hence the
`Option` types. -/
structure PostData where
  id : String
  shortcode : String
  typename : String
  url : String
  thumbnail_url : String
  caption : String
  likes : Int
  comments : Int
  date_posted : Option String
  is_video : Bool
  is_pinned : Bool
  is_sponsored : Bool
  accessibility_caption : String
  owner_username : String
  owner_id : Int
  hashtags : List String
  mentions : List String
  video_duration : Option Int
  video_views : Option Int
  video_url : Option String
  location : Option (String × String)
  tagged_users : List String

/-- `extract_post_data` (lines 253-311): the video branch also rewrites
`url` to the `/reel/` form. -/
def extract_post_data (post : IGPost) : PostData :=
  { id := toString post.mediaid
    shortcode := post.shortcode
    typename := post.typename
    url :=
      if post.is_video then "https://instagram.com/reel/" ++ post.shortcode ++ "/"
      else "https://instagram.com/p/" ++ post.shortcode ++ "/"
    thumbnail_url := post.url
    caption := post.caption.getD ""
    likes := post.likes
    comments := post.comments
    date_posted := post.date_utc
    is_video := post.is_video
    is_pinned := post.is_pinned
    is_sponsored := post.is_sponsored
    accessibility_caption := post.accessibility_caption
    owner_username := post.owner_username
    owner_id := post.owner_id
    hashtags := post.caption_hashtags
    mentions := post.caption_mentions
    video_duration := if post.is_video then some post.video_duration else none
    video_views := if post.is_video then some post.video_view_count else none
    video_url := if post.is_video then some post.video_url else none
    location := post.location
    tagged_users := post.tagged_users }

/-- The reel view (lines 416-431): `post_data.copy()` plus `reel_*`
mirrors of the base fields. -/
structure ReelData where
  base : PostData
  reel_id : String
  reel_shortcode : String
  reel_url : String
  reel_thumbnail_url : String
  reel_caption : String
  reel_likes : Int
  reel_comments : Int
  reel_views : Int
  reel_date_posted : Option String
  reel_duration : Int
  reel_is_video : Bool
  reel_hashtags : List String
  reel_mentions : List String

def mkReelData (d : PostData) : ReelData :=
  { base := d
    reel_id := d.id
    reel_shortcode := d.shortcode
    reel_url := d.url
    reel_thumbnail_url := d.thumbnail_url
    reel_caption := d.caption
    reel_likes := d.likes
    reel_comments := d.comments
    reel_views := d.video_views.getD 0
    reel_date_posted := d.date_posted
    reel_duration := d.video_duration.getD 0
    reel_is_video := true
    reel_hashtags := d.hashtags
    reel_mentions := d.mentions }

/-- Outcome of one iteration of the post loop, as seen from outside the
library: the post is extracted, or `extract_post_data` hits its internal
handler and returns `None`, or the loop body itself raises (and the
per-post `except` continues — skipping the index check at the bottom of
the `try`). -/
inductive PItem where
  | good (p : IGPost)
  | extractFails
  | bodyRaises

/-- Accumulators of the post loop (lines 387-390). -/
structure LoopOut where
  posts : List PostData
  reels : List ReelData
  post_count : Nat
  reel_count : Nat

/-- The post loop (lines 396-442): append the post, mirror videos into
`reels`, and `break` when `post_index >= 100` — a check inside the `try`,
placed after the appends, and skipped when the body raises. -/
def scrapeLoop : List PItem → Nat → List PostData → List ReelData → Nat → Nat → LoopOut
  | [], _, posts, reels, pc, rc => ⟨posts, reels, pc, rc⟩
  | item :: rest, idx, posts, reels, pc, rc =>
    match item with
    | .bodyRaises => scrapeLoop rest (idx + 1) posts reels pc rc
    | .extractFails =>
      if idx ≥ 100 then ⟨posts, reels, pc, rc⟩
      else scrapeLoop rest (idx + 1) posts reels pc rc
    | .good p =>
      let d := extract_post_data p
      let posts' := posts ++ [d]
      let pc' := pc + 1
      let reels' := if p.is_video then reels ++ [mkReelData d] else reels
      let rc' := if p.is_video then rc + 1 else rc
      if idx ≥ 100 then ⟨posts', reels', pc', rc'⟩
      else scrapeLoop rest (idx + 1) posts' reels' pc' rc'

/-- The result dictionary of `scrape_instagram_profile` (key set of the
three return shapes, lines 372-383, 450-463 and 468-480). -/
structure ScrapeResult where
  success : Bool
  error : Option String
  profile : Option ProfileData
  reels : List ReelData
  all_posts : List PostData
  total_reels : Nat
  total_posts : Nat
  authenticated : Bool
  message : String
  warning : Option String

/-- `scrape_instagram_profile`: the profile fetch (with its translated
exception messages) and the iteration outcomes are the external inputs.
A failure of `profile.get_posts()` itself merely ends the iteration early
(lines 444-446) and is therefore subsumed by a shorter `items` list. -/
def scrape_instagram_profile (username : String)
    (profileFetch : Except String IGProfile) (authenticated : Bool)
    (items : List PItem) : ScrapeResult :=
  match profileFetch with
  | .error msg =>
    { success := false
      error := some msg
      profile := none
      reels := []
      all_posts := []
      total_reels := 0
      total_posts := 0
      authenticated := false
      message := "Failed to analyze @" ++ username ++ ": " ++ msg
      warning := none }
  | .ok profile =>
    let profile_data := extract_profile_data profile
    if profile.is_private && !authenticated then
      { success := true
        error := none
        profile := some profile_data
        reels := []
        all_posts := []
        total_reels := 0
        total_posts := 0
        authenticated := false
        message := "Profile is private - authentication required for post data"
        warning := none }
    else
      let lo := scrapeLoop items 0 [] [] 0 0
      { success := true
        error := none
        profile := some profile_data
        reels := lo.reels
        all_posts := lo.posts
        total_reels := lo.reel_count
        total_posts := lo.post_count
        authenticated := authenticated
        message := "Successfully extracted " ++ toString lo.post_count ++ " posts (" ++
          toString lo.reel_count ++ " reels) from @" ++ username
        warning :=
          if !authenticated then
            some "Limited data access without authentication. Login to get full post data."
          else none }

/-! ## `fast_fetch_posts.py` -/

/-- The per-item result of `fetch_instagram_post`. -/
structure PostResult where
  url : String
  type : String
  status : String

/-- The JSON walk of `fetch_instagram_post` (lines 28-44); any raised
exception is caught by the function's bare `except`. -/
def web_profile_nav (data : Json) : Except PyErr PostResult :=
  match jGet data "data" (.obj []) with
  | .error e => .error e
  | .ok d1 =>
    match jGet d1 "user" (.obj []) with
    | .error e => .error e
    | .ok user_data =>
      match jGet user_data "edge_owner_to_timeline_media" (.obj []) with
      | .error e => .error e
      | .ok media =>
        match jGet media "edges" (.arr []) with
        | .error e => .error e
        | .ok edges =>
          if pyTruthy edges then
            match jItem0 edges with
            | .error e => .error e
            | .ok e0 =>
              match jGet e0 "node" (.obj []) with
              | .error e => .error e
              | .ok first_post =>
                match jGet first_post "shortcode" .null with
                | .error e => .error e
                | .ok shortcode =>
                  match jGet first_post "is_video" (.bool false) with
                  | .error e => .error e
                  | .ok is_video =>
                    if pyTruthy shortcode then
                      .ok { url := "https://www.instagram.com/" ++
                              (if pyTruthy is_video then "reel" else "p") ++ "/" ++
                              pyStr shortcode ++ "/"
                            type := if pyTruthy is_video then "reel" else "post"
                            status := "found" }
                    else .ok { url := "", type := "", status := "not_found" }
          else .ok { url := "", type := "", status := "not_found" }

/-- `fetch_instagram_post` (lines 10-49): every exception — request
failure, JSON decode failure (`body = none`), or a walk error — is caught
at this boundary and becomes the `error` status. -/
def fetch_instagram_post (response : Except Unit (Nat × Option Json)) : PostResult :=
  match response with
  | .error _ => { url := "", type := "", status := "error" }
  | .ok (status, body) =>
    if status = 200 then
      match body with
      | none => { url := "", type := "", status := "error" }
      | some data =>
        match web_profile_nav data with
        | .error _ => { url := "", type := "", status := "error" }
        | .ok r => r
    else { url := "", type := "", status := "not_found" }

/-- One CSV row of the batch runs. -/
structure CsvRow where
  profile_url : String
  username : String
  post_url : String
  post_type : String
  status : String

/-- `process_profile` result row (lines 51-69). -/
def process_profile_row (purl uname : String) (r : PostResult) : CsvRow :=
  { profile_url := purl, username := uname, post_url := r.url,
    post_type := r.type, status := r.status }

/-- One completed future in `process_all_profiles` (lines 107-129): a
raising `future.result(...)` is caught at the item boundary and appended
as an `error` row. -/
def batch_item_row (purl uname : String) (outcome : Except Unit PostResult) : CsvRow :=
  match outcome with
  | .ok r => process_profile_row purl uname r
  | .error _ =>
    { profile_url := purl, username := uname, post_url := "", post_type := "",
      status := "error" }

/-- The accumulated rows of a batch run; the thread pool's completion
order is abstracted as the order of `items`. -/
def process_all_profiles_rows
    (items : List (String × String × Except Unit PostResult)) : List CsvRow :=
  items.map (fun it => batch_item_row it.1 it.2.1 it.2.2)

/-! ## Result projections used by the statements -/

/-- The error message of a failed extraction, if any. -/
def resultErrorMsg : ReelResult → Option String
  | .ok _ => none
  | .error msg => some msg

/-- Whether the extraction returned a success record. -/
def resultIsOk : ReelResult → Bool
  | .ok _ => true
  | .error _ => false

/-- `str()` of the `username` field of a success record. -/
def resultUsernameStr : ReelResult → Option String
  | .ok r => some (pyStr r.username)
  | .error _ => none

/-- The `shortcode` field of a success record (`some none` = the record
was emitted with shortcode `None`). -/
def resultShortcodeField : ReelResult → Option (Option String)
  | .ok r => some r.shortcode
  | .error _ => none

/-- The `thumbnail_url` field of a success record. -/
def resultThumbField : ReelResult → Option (Option String)
  | .ok r => some r.thumbnail_url
  | .error _ => none

/-- Truthiness of the `author_id` field; vacuously `true` on errors, so
`= true` states: no success record carries an absent/empty author id. -/
def successAuthorIdTruthy : ReelResult → Bool
  | .ok r => pyTruthy r.author_id
  | .error _ => true

/-- Whether the shared-data strategy ended in the
`elif username and not author_id` branch (the source prints
`Found username but no author_id in shared data` there). -/
def isContFoundNoId : SDOut → Bool
  | .contFoundNoId => true
  | _ => false

/-! ## Concrete inputs used by counterexamples and witnesses -/

/-- The identity stand-in for `html.unescape` (the concrete payloads used
below contain no HTML entities, on which `html.unescape` is the
identity). -/
def idStr : String → String := fun s => s

/-- A `json.loads` stand-in for payloads on which it is never invoked. -/
def parseNone : String → Option Json := fun _ => none

/-- A shared-data blob whose owner block has a username but no id. -/
def sdBlob : String :=
  "\x7b\"entry_data\": \x7b\"PostPage\": [\x7b\"graphql\": \x7b\"shortcode_media\": " ++
  "\x7b\"owner\": \x7b\"username\": \"alice\"\x7d\x7d\x7d\x7d]\x7d\x7d"

/-- A page embedding `sdBlob` as its `window._sharedData` (and nothing
else any strategy could use). -/
def sdContent : String := "window._sharedData = " ++ sdBlob ++ ";"

/-- `json.loads sdBlob`. -/
def sdJson : Json :=
  .obj [("entry_data",
    .obj [("PostPage",
      .arr [.obj [("graphql",
        .obj [("shortcode_media",
          .obj [("owner", .obj [("username", .str "alice")])])])]])])]

/-- The `json.loads` collaborator on `sdContent`: decodes exactly the
blob the shared-data regex captures there. -/
def sdParse : String → Option Json := fun s => if s = sdBlob then some sdJson else none

/-- A page whose only creator data is an owner block with both id and
username — matched by script_patterns[1]. -/
def ownerContent : String := "\"owner\": \x7b\"id\": \"123\", \"username\": \"alice\"\x7d"

/-- The same owner block but with the platform's own brand name as the
username. -/
def ownerInstaContent : String :=
  "\"owner\": \x7b\"id\": \"123\", \"username\": \"instagram\"\x7d"

/-- A page whose only creator data is matched by looser_patterns[0], with
the brand name as username. -/
def looserInstaContent : String := "\"pk\": \"123\", \"username\": \"Instagram\""

/-- Does the head of `b` (if any) fall outside the class `p`?  Used to
state that a captured segment is maximal. -/
def headNotIn (p : Char → Bool) : List Char → Bool
  | [] => true
  | c :: _ => !p c

/-- Did the shared-data strategy fall through (rather than produce a
record or abort)? -/
def sdFallsThrough : SDOut → Bool
  | .cont => true
  | .contFoundNoId => true
  | _ => false

/-- A page whose only creator trace is a meta `og:title` with a username
token — the metadata-only strategy's territory. -/
def metaOnlyContent : String := "<meta property=\"og:title\" content=\"@alice on site\">"

/-- The oEmbed payload of the spec's example. -/
def oembedJson : Json :=
  .obj [("author_name", .str "alice"), ("title", .str "Hello #fun @bob")]

/-- A page matched only by looser_patterns[0] with an ordinary username. -/
def looserBobContent : String := "\"pk\": \"9\", \"username\": \"bob\""

/-- A minimal non-video post, used to drive the scraper loop. -/
def samplePost (i : Nat) : IGPost :=
  { mediaid := i, shortcode := "sc", typename := "GraphImage", url := "u",
    caption := none, likes := 0, comments := 0, date_utc := none,
    is_video := false, is_pinned := false, is_sponsored := false,
    accessibility_caption := "", owner_username := "o", owner_id := 0,
    caption_hashtags := [], caption_mentions := [], video_duration := 0,
    video_view_count := 0, video_url := "", location := none, tagged_users := [] }

/-- A feed of `n` processable posts. -/
def sampleItems (n : Nat) : List PItem :=
  (List.range n).map (fun i => .good (samplePost i))

/-! ## Lemmas about the pattern engine -/

lemma takeWhile_append_eq (p : Char → Bool) (code b : List Char)
    (hall : code.all p = true) (hb : headNotIn p b = true) :
    (code ++ b).takeWhile p = code := by
  induction code with
  | nil =>
    cases b with
    | nil => rfl
    | cons c bs =>
      simp only [headNotIn, Bool.not_eq_true'] at hb
      simp [List.takeWhile, hb]
  | cons a code' ih =>
    simp only [List.all_cons, Bool.and_eq_true] at hall
    simp [List.takeWhile, hall.1, ih hall.2]

/-- Matching a lone greedy required capture group: the capture is the
maximal run of class characters. -/
lemma grp_greedy_eq (p : Char → Bool) (t : List Char) :
    matchItems [.grp p true true] t =
      if (t.takeWhile p).length = 0 then none
      else some ([t.takeWhile p], t.drop (t.takeWhile p).length) := by
  have htw : t.take (t.takeWhile p).length = t.takeWhile p :=
    (List.prefix_iff_eq_take.mp (List.takeWhile_prefix p)).symm
  rcases h : (t.takeWhile p).length with _ | m
  · simp [matchItems, h, widthCandidates, tryWidths]
  · have hw : widthCandidates 1 (m + 1) true = (m + 1) :: (List.range' 1 m).reverse := by
      unfold widthCandidates
      have h1 : m + 1 + 1 - 1 = m + 1 := by omega
      rw [h1, show List.range' 1 (m + 1) = List.range' 1 m ++ [1 + m] from by
        simpa using @List.range'_concat 1 1 m]
      simp [Nat.add_comm]
    rw [h] at htw
    simp [matchItems, h, hw, tryWidths, htw]

/-- Matching a literal followed by a greedy required capture group. -/
lemma lit_grp_eq (l : List Char) (p : Char → Bool) (s : List Char) :
    matchItems [.lit l, .grp p true true] s =
      if s.take l.length = l then
        (if ((s.drop l.length).takeWhile p).length = 0 then none
         else some ([(s.drop l.length).takeWhile p],
                    (s.drop l.length).drop ((s.drop l.length).takeWhile p).length))
      else none := by
  by_cases h : s.take l.length = l
  · simp only [matchItems, h, if_true]
    exact grp_greedy_eq p (s.drop l.length)
  · simp [matchItems, h]

lemma scanShortcode_cons_none (c : Char) (s' : List Char)
    (h1 : matchItems shortcodePatP (c :: s') = none)
    (h2 : matchItems shortcodePatReel (c :: s') = none) :
    scanShortcode (c :: s') = scanShortcode s' := by
  simp [scanShortcode, h1, h2]

/-- Positions before the first match contribute nothing. -/
lemma scanShortcode_skip (n : Nat) : ∀ s : List Char,
    (∀ j, j < n → matchItems shortcodePatP (s.drop j) = none ∧
                  matchItems shortcodePatReel (s.drop j) = none) →
    scanShortcode s = scanShortcode (s.drop n) := by
  induction n with
  | zero => intro s _; rfl
  | succ n ih =>
    intro s h
    cases s with
    | nil => simp
    | cons c s' =>
      have h0 := h 0 (Nat.succ_pos n)
      simp only [List.drop_zero] at h0
      rw [scanShortcode_cons_none c s' h0.1 h0.2]
      have hrec := ih s' (fun j hj => by
        have := h (j + 1) (Nat.succ_lt_succ hj)
        simpa using this)
      simpa using hrec

/-- A match of `/p/([A-Za-z0-9_-]+)` at the current position: the scanner
returns exactly the following maximal class run. -/
lemma scanShortcode_at_p (code b : List Char) (hc : code ≠ [])
    (hall : code.all wordDash = true) (hb : headNotIn wordDash b = true) :
    scanShortcode (L "/p/" ++ (code ++ b)) = some code := by
  have htw : (code ++ b).takeWhile wordDash = code := takeWhile_append_eq _ _ _ hall hb
  have hm : matchItems shortcodePatP (L "/p/" ++ (code ++ b)) =
      some ([code], (code ++ b).drop code.length) := by
    rw [show shortcodePatP = [.lit (L "/p/"), .grp wordDash true true] from rfl,
        lit_grp_eq]
    rw [show (L "/p/" ++ (code ++ b)).take (L "/p/").length = L "/p/" from
          List.take_left _ _,
        show (L "/p/" ++ (code ++ b)).drop (L "/p/").length = code ++ b from
          List.drop_left _ _,
        htw]
    simp [List.length_eq_zero, hc]
  have hm' : matchItems shortcodePatP ('/' :: 'p' :: '/' :: (code ++ b)) =
      some ([code], (code ++ b).drop code.length) := hm
  show scanShortcode ('/' :: 'p' :: '/' :: (code ++ b)) = some code
  simp [scanShortcode, hm']

/-- A match of `/reel/([A-Za-z0-9_-]+)` at the current position (where
the `/p/` alternative necessarily fails). -/
lemma scanShortcode_at_reel (code b : List Char) (hc : code ≠ [])
    (hall : code.all wordDash = true) (hb : headNotIn wordDash b = true) :
    scanShortcode (L "/reel/" ++ (code ++ b)) = some code := by
  have htw : (code ++ b).takeWhile wordDash = code := takeWhile_append_eq _ _ _ hall hb
  have hmp : matchItems shortcodePatP (L "/reel/" ++ (code ++ b)) = none := by
    rw [show shortcodePatP = [.lit (L "/p/"), .grp wordDash true true] from rfl,
        lit_grp_eq]
    have : (L "/reel/" ++ (code ++ b)).take (L "/p/").length = L "/re" := rfl
    rw [this]
    simp [L]
  have hm : matchItems shortcodePatReel (L "/reel/" ++ (code ++ b)) =
      some ([code], (code ++ b).drop code.length) := by
    rw [show shortcodePatReel = [.lit (L "/reel/"), .grp wordDash true true] from rfl,
        lit_grp_eq]
    rw [show (L "/reel/" ++ (code ++ b)).take (L "/reel/").length = L "/reel/" from
          List.take_left _ _,
        show (L "/reel/" ++ (code ++ b)).drop (L "/reel/").length = code ++ b from
          List.drop_left _ _,
        htw]
    simp [List.length_eq_zero, hc]
  have hm' : matchItems shortcodePatReel ('/' :: 'r' :: 'e' :: 'e' :: 'l' :: '/' :: (code ++ b)) =
      some ([code], (code ++ b).drop code.length) := hm
  have hmp' : matchItems shortcodePatP ('/' :: 'r' :: 'e' :: 'e' :: 'l' :: '/' :: (code ++ b)) =
      none := hmp
  show scanShortcode ('/' :: 'r' :: 'e' :: 'e' :: 'l' :: '/' :: (code ++ b)) = some code
  simp [scanShortcode, hm', hmp']

/-- A successful scan yields a nonempty capture drawn from the shortcode
alphabet. -/
lemma scanShortcode_some : ∀ s code, scanShortcode s = some code →
    code ≠ [] ∧ code.all wordDash = true := by
  intro s
  induction s with
  | nil => intro code h; simp [scanShortcode] at h
  | cons c s' ih =>
    intro code h
    have htp := lit_grp_eq (L "/p/") wordDash (c :: s')
    have htr := lit_grp_eq (L "/reel/") wordDash (c :: s')
    rw [show [RItem.lit (L "/p/"), RItem.grp wordDash true true] = shortcodePatP from rfl]
      at htp
    rw [show [RItem.lit (L "/reel/"), RItem.grp wordDash true true] = shortcodePatReel
          from rfl] at htr
    simp only [scanShortcode] at h
    rcases hp : matchItems shortcodePatP (c :: s') with _ | ⟨caps, t⟩
    · rw [hp] at h
      rcases hr : matchItems shortcodePatReel (c :: s') with _ | ⟨caps, t⟩
      · rw [hr] at h
        exact ih code h
      · rw [hr] at h
        rw [hr] at htr
        split at htr
        · split at htr
          · exact absurd htr (by simp)
          · rename_i hlen
            have hcaps : caps = [((c :: s').drop (L "/reel/").length).takeWhile wordDash] := by
              simp only [Option.some.injEq, Prod.mk.injEq] at htr
              exact htr.1
            simp only [hcaps, List.headD] at h
            obtain rfl : ((c :: s').drop (L "/reel/").length).takeWhile wordDash = code := by
              injection h
            constructor
            · intro hnil; rw [hnil] at hlen; simp at hlen
            · rw [List.all_eq_true]
              intro x hx
              exact List.mem_takeWhile_imp hx
        · exact absurd htr (by simp)
    · rw [hp] at h
      rw [hp] at htp
      split at htp
      · split at htp
        · exact absurd htp (by simp)
        · rename_i hlen
          have hcaps : caps = [((c :: s').drop (L "/p/").length).takeWhile wordDash] := by
            simp only [Option.some.injEq, Prod.mk.injEq] at htp
            exact htp.1
          simp only [hcaps, List.headD] at h
          obtain rfl : ((c :: s').drop (L "/p/").length).takeWhile wordDash = code := by
            injection h
          constructor
          · intro hnil; rw [hnil] at hlen; simp at hlen
          · rw [List.all_eq_true]
            intro x hx
            exact List.mem_takeWhile_imp hx
      · exact absurd htp (by simp)

/-- A successful scan implies the `/p/` or `/reel/` marker occurs in the
input. -/
lemma scanShortcode_some_marker : ∀ s code, scanShortcode s = some code →
    containsSub (L "/p/") s = true ∨ containsSub (L "/reel/") s = true := by
  intro s
  induction s with
  | nil => intro code h; simp [scanShortcode] at h
  | cons c s' ih =>
    intro code h
    simp only [scanShortcode] at h
    rcases hp : matchItems shortcodePatP (c :: s') with _ | ⟨caps, t⟩
    · rcases hr : matchItems shortcodePatReel (c :: s') with _ | ⟨caps, t⟩
      · rw [hp, hr] at h
        rcases ih code h with h1 | h1
        · exact Or.inl (by simp [containsSub, h1])
        · exact Or.inr (by simp [containsSub, h1])
      · right
        have := lit_grp_eq (L "/reel/") wordDash (c :: s')
        rw [show [RItem.lit (L "/reel/"), RItem.grp wordDash true true] = shortcodePatReel
              from rfl, hr] at this
        have hpre : (c :: s').take (L "/reel/").length = L "/reel/" := by
          by_contra hne
          rw [if_neg hne] at this
          exact absurd this (by simp)
        simp [containsSub, hpre]
    · left
      have := lit_grp_eq (L "/p/") wordDash (c :: s')
      rw [show [RItem.lit (L "/p/"), RItem.grp wordDash true true] = shortcodePatP
            from rfl, hp] at this
      have hpre : (c :: s').take (L "/p/").length = L "/p/" := by
        by_contra hne
        rw [if_neg hne] at this
        exact absurd this (by simp)
      simp [containsSub, hpre]

/-- The shared-data walk produces a hit only under the
`if username and author_id:` guard. -/
lemma navShared_hit_truthy (j : Json) (un aid cap : Json)
    (h : navShared j = .hit un aid cap) :
    pyTruthy un = true ∧ pyTruthy aid = true := by
  unfold navShared sdErr at h
  repeat' split at h
  all_goals simp_all [Bool.and_eq_true]

lemma sharedStep_hit_truthy (parse : String → Option Json) (c : List Char)
    (un aid cap : Json) (h : sharedStep parse c = .hit un aid cap) :
    pyTruthy un = true ∧ pyTruthy aid = true := by
  unfold sharedStep at h
  repeat' split at h
  all_goals first
    | exact navShared_hit_truthy _ _ _ _ h
    | exact absurd h (by simp)

lemma scriptPairsGood_some (c : List Char) (pr : String × String)
    (h : scriptPairsGood c = some pr) : scriptGuard pr = true := by
  unfold scriptPairsGood at h
  split at h
  · rename_i heq
    cases h
    exact List.find?_some heq
  · exact List.find?_some h

lemma looserPairsGood_some (c : List Char) (pr : String × String)
    (h : looserPairsGood c = some pr) : looserGuard pr = true := by
  unfold looserPairsGood at h
  split at h
  · rename_i heq
    cases h
    exact List.find?_some heq
  · split at h
    · rename_i heq
      cases h
      exact List.find?_some heq
    · exact List.find?_some h

/-- Every success record of `get_reel_creator` carries the URL-derived
shortcode, the meta-tag thumbnail, and a truthy (non-absent, non-empty)
author id. -/
lemma get_reel_creator_ok (url content : String) (parse : String → Option Json)
    (unescape : String → String) (r : ReelRecord)
    (h : get_reel_creator url content parse unescape = .ok r) :
    r.shortcode = extract_shortcode_from_url url ∧
    r.thumbnail_url = findThumbnail content.data ∧
    pyTruthy r.author_id = true := by
  cases h1 : sharedStep parse content.data with
  | abort e =>
    simp only [get_reel_creator, h1] at h
    exact absurd h (by simp)
  | hit un aid cap =>
    simp only [get_reel_creator, h1, ReelResult.ok.injEq] at h
    have := (sharedStep_hit_truthy parse content.data un aid cap h1).2
    subst h
    exact ⟨rfl, rfl, this⟩
  | contFoundNoId =>
    cases h2 : scriptPairsGood content.data with
    | some pr =>
      obtain ⟨aid, un⟩ := pr
      have hg := scriptPairsGood_some content.data _ h2
      simp only [scriptGuard, Bool.and_eq_true] at hg
      simp only [get_reel_creator, h1, h2, ReelResult.ok.injEq] at h
      subst h
      exact ⟨rfl, rfl, hg.1⟩
    | none =>
      cases h3 : looserPairsGood content.data with
      | some pr =>
        obtain ⟨aid, un⟩ := pr
        have hg := looserPairsGood_some content.data _ h3
        simp only [looserGuard, Bool.and_eq_true] at hg
        simp only [get_reel_creator, h1, h2, h3, ReelResult.ok.injEq] at h
        subst h
        exact ⟨rfl, rfl, hg.1.1⟩
      | none =>
        by_cases h4 : metaStrategyHit content.data <;>
          by_cases h5 : titleStrategyHit content.data <;>
          simp only [get_reel_creator, h1, h2, h3, h4, h5] at h <;>
          exact absurd h (by simp)
  | cont =>
    cases h2 : scriptPairsGood content.data with
    | some pr =>
      obtain ⟨aid, un⟩ := pr
      have hg := scriptPairsGood_some content.data _ h2
      simp only [scriptGuard, Bool.and_eq_true] at hg
      simp only [get_reel_creator, h1, h2, ReelResult.ok.injEq] at h
      subst h
      exact ⟨rfl, rfl, hg.1⟩
    | none =>
      cases h3 : looserPairsGood content.data with
      | some pr =>
        obtain ⟨aid, un⟩ := pr
        have hg := looserPairsGood_some content.data _ h3
        simp only [looserGuard, Bool.and_eq_true] at hg
        simp only [get_reel_creator, h1, h2, h3, ReelResult.ok.injEq] at h
        subst h
        exact ⟨rfl, rfl, hg.1.1⟩
      | none =>
        by_cases h4 : metaStrategyHit content.data <;>
          by_cases h5 : titleStrategyHit content.data <;>
          simp only [get_reel_creator, h1, h2, h3, h4, h5] at h <;>
          exact absurd h (by simp)

/-! ## The claims -/

/-- C1: for every URL decomposable as `a ++ "/p/" ++ code ++ b` (resp.
`/reel/`) with `code` a nonempty maximal `[A-Za-z0-9_-]` segment and no
earlier match, `extract_shortcode_from_url` returns exactly `code`; for
every URL containing neither `/p/` nor `/reel/` it returns none.  (The
embedding is a pure function, so freedom from side effects is inherent.) -/
theorem spec_C1 :
    (∀ (a code b : List Char), code ≠ [] → code.all wordDash = true →
        headNotIn wordDash b = true →
        (∀ j, j < a.length →
          matchItems shortcodePatP ((a ++ (L "/p/" ++ (code ++ b))).drop j) = none ∧
          matchItems shortcodePatReel ((a ++ (L "/p/" ++ (code ++ b))).drop j) = none) →
        extract_shortcode_from_url (String.mk (a ++ (L "/p/" ++ (code ++ b)))) =
          some (String.mk code)) ∧
    (∀ (a code b : List Char), code ≠ [] → code.all wordDash = true →
        headNotIn wordDash b = true →
        (∀ j, j < a.length →
          matchItems shortcodePatP ((a ++ (L "/reel/" ++ (code ++ b))).drop j) = none ∧
          matchItems shortcodePatReel ((a ++ (L "/reel/" ++ (code ++ b))).drop j) = none) →
        extract_shortcode_from_url (String.mk (a ++ (L "/reel/" ++ (code ++ b)))) =
          some (String.mk code)) ∧
    (∀ url : String, containsSub (L "/p/") url.data = false →
        containsSub (L "/reel/") url.data = false →
        extract_shortcode_from_url url = none) := by
  refine ⟨?_, ?_, ?_⟩
  · intro a code b hc hall hb hskip
    unfold extract_shortcode_from_url
    have h1 : scanShortcode (a ++ (L "/p/" ++ (code ++ b))) =
        scanShortcode (L "/p/" ++ (code ++ b)) := by
      have := scanShortcode_skip a.length (a ++ (L "/p/" ++ (code ++ b))) hskip
      rwa [List.drop_left] at this
    rw [show (String.mk (a ++ (L "/p/" ++ (code ++ b)))).data =
          a ++ (L "/p/" ++ (code ++ b)) from rfl]
    rw [h1, scanShortcode_at_p code b hc hall hb]
    rfl
  · intro a code b hc hall hb hskip
    unfold extract_shortcode_from_url
    have h1 : scanShortcode (a ++ (L "/reel/" ++ (code ++ b))) =
        scanShortcode (L "/reel/" ++ (code ++ b)) := by
      have := scanShortcode_skip a.length (a ++ (L "/reel/" ++ (code ++ b))) hskip
      rwa [List.drop_left] at this
    rw [show (String.mk (a ++ (L "/reel/" ++ (code ++ b)))).data =
          a ++ (L "/reel/" ++ (code ++ b)) from rfl]
    rw [h1, scanShortcode_at_reel code b hc hall hb]
    rfl
  · intro url h1 h2
    unfold extract_shortcode_from_url
    rcases hscan : scanShortcode url.data with _ | code
    · rfl
    · exfalso
      rcases scanShortcode_some_marker url.data code hscan with hm | hm
      · rw [hm] at h1; exact absurd h1 (by simp)
      · rw [hm] at h2; exact absurd h2 (by simp)

/-- Witness for `spec_C1` at concrete inputs. -/
theorem spec_C1_witness :
    extract_shortcode_from_url
        (String.mk (L "https://www.instagram.com" ++ (L "/p/" ++ (L "ABC123" ++ L "/")))) =
      some (String.mk (L "ABC123")) ∧
    extract_shortcode_from_url "https://example.com/page" = none := by
  constructor
  · exact spec_C1.1 (L "https://www.instagram.com") (L "ABC123") (L "/")
      (by decide) (by decide) (by decide) (by decide)
  · exact spec_C1.2.2 "https://example.com/page" (by decide) (by decide)

set_option maxRecDepth 8192 in
/-- C2 counterexample: a payload whose `window._sharedData` owner block
has `username = "alice"` but no id.  The walk reports the username-no-id
state (lines 159-160), yet extraction falls through and — with nothing
else to find — ends in the generic `Could not extract creator
information`, not the distinct `MissingAuthorId` message. -/
theorem spec_C2_counterexample :
    isContFoundNoId (sharedStep sdParse (String.data sdContent)) = true ∧
    resultErrorMsg (get_reel_creator "https://instagram.com/p/XYZ/" sdContent sdParse idStr) =
      some "Could not extract creator information" ∧
    "Could not extract creator information" ≠
      "Could not extract author ID from Instagram post" := by
  refine ⟨by decide, by decide, by decide⟩

/-- C2 (amended): extraction never returns a success record whose
author id is absent or empty; and when the earlier strategies fall
through and the meta-tag/title strategies find a username without an id,
extraction returns the distinct `MissingAuthorId` error.  (A username
found only in the shared data without an id merely falls through.) -/
theorem spec_C2 :
    (∀ (url content : String) (parse : String → Option Json) (unescape : String → String),
        successAuthorIdTruthy (get_reel_creator url content parse unescape) = true) ∧
    (∀ (url content : String) (parse : String → Option Json) (unescape : String → String),
        sdFallsThrough (sharedStep parse content.data) = true →
        scriptPairsGood content.data = none →
        looserPairsGood content.data = none →
        (metaStrategyHit content.data || titleStrategyHit content.data) = true →
        get_reel_creator url content parse unescape =
          .error "Could not extract author ID from Instagram post") := by
  constructor
  · intro url content parse unescape
    cases hres : get_reel_creator url content parse unescape with
    | ok r =>
      have := (get_reel_creator_ok url content parse unescape r hres).2.2
      simpa [successAuthorIdTruthy] using this
    | error msg => rfl
  · intro url content parse unescape hsd h2 h3 h4
    cases h1 : sharedStep parse content.data with
    | hit un aid cap => rw [h1] at hsd; exact absurd hsd (by simp [sdFallsThrough])
    | abort e => rw [h1] at hsd; exact absurd hsd (by simp [sdFallsThrough])
    | contFoundNoId =>
      rcases Bool.or_eq_true_iff.mp h4 with h4' | h4'
      · simp [get_reel_creator, h1, h2, h3, h4']
      · by_cases hm : metaStrategyHit content.data <;>
          simp [get_reel_creator, h1, h2, h3, h4', hm]
    | cont =>
      rcases Bool.or_eq_true_iff.mp h4 with h4' | h4'
      · simp [get_reel_creator, h1, h2, h3, h4']
      · by_cases hm : metaStrategyHit content.data <;>
          simp [get_reel_creator, h1, h2, h3, h4', hm]

/-- Witness for `spec_C2`: a successful extraction has a truthy author
id, and a meta-only page yields the `MissingAuthorId` error. -/
theorem spec_C2_witness :
    successAuthorIdTruthy
        (get_reel_creator "https://instagram.com/p/ABC/" ownerContent parseNone idStr) = true ∧
    get_reel_creator "https://instagram.com/p/Q/" metaOnlyContent parseNone idStr =
      .error "Could not extract author ID from Instagram post" :=
  ⟨spec_C2.1 "https://instagram.com/p/ABC/" ownerContent parseNone idStr,
   spec_C2.2 "https://instagram.com/p/Q/" metaOnlyContent parseNone idStr
     (by decide) (by decide) (by decide) (by decide)⟩

/-- C3 counterexample: for a source URL with no `/p/` or `/reel/`
segment (shortcode underivable) and a page with usable owner data, the
pipeline still emits a success record — with `shortcode = None` — rather
than reporting extraction failed. -/
theorem spec_C3_counterexample :
    containsSub (L "/p/") (String.data "https://instagram.com/xyz") = false ∧
    containsSub (L "/reel/") (String.data "https://instagram.com/xyz") = false ∧
    resultIsOk (get_reel_creator "https://instagram.com/xyz" ownerContent parseNone idStr) =
      true ∧
    resultShortcodeField
        (get_reel_creator "https://instagram.com/xyz" ownerContent parseNone idStr) =
      some none := by
  refine ⟨by decide, by decide, by decide, by decide⟩

/-- C3 (amended): every success record's `shortcode` field is exactly
`extract_shortcode_from_url` of the source URL — nonempty and drawn from
`[A-Za-z0-9_-]` whenever it is present — but when no shortcode can be
derived the pipeline still emits the record with `shortcode = None`
instead of reporting failure. -/
theorem spec_C3 :
    (∀ (url content : String) (parse : String → Option Json) (unescape : String → String),
        resultShortcodeField (get_reel_creator url content parse unescape) = none ∨
        resultShortcodeField (get_reel_creator url content parse unescape) =
          some (extract_shortcode_from_url url)) ∧
    (∀ (url s : String), extract_shortcode_from_url url = some s →
        s ≠ "" ∧ s.data.all wordDash = true) := by
  constructor
  · intro url content parse unescape
    cases hres : get_reel_creator url content parse unescape with
    | ok r =>
      right
      have := (get_reel_creator_ok url content parse unescape r hres).1
      simp [resultShortcodeField, this]
    | error msg => left; rfl
  · intro url s h
    unfold extract_shortcode_from_url at h
    rcases Option.map_eq_some'.mp h with ⟨code, hscan, hmk⟩
    obtain ⟨hne, hall⟩ := scanShortcode_some url.data code hscan
    subst hmk
    constructor
    · intro h'
      exact hne (congrArg String.data h')
    · exact hall

/-- Witness for `spec_C3` at concrete inputs. -/
theorem spec_C3_witness :
    (resultShortcodeField (get_reel_creator "https://instagram.com/p/ABC/" "" parseNone idStr) =
        none ∨
     resultShortcodeField (get_reel_creator "https://instagram.com/p/ABC/" "" parseNone idStr) =
        some (extract_shortcode_from_url "https://instagram.com/p/ABC/")) ∧
    ("AB" ≠ "" ∧ (String.data "AB").all wordDash = true) :=
  ⟨spec_C3.1 "https://instagram.com/p/ABC/" "" parseNone idStr,
   spec_C3.2 "https://instagram.com/p/AB/" "AB" (by decide)⟩

/-- C4 counterexample: the oEmbed strategy is never attempted — even with
the spec's oEmbed payload available and parsing (HTTP 200), extraction of
`https://instagram.com/p/ABC123/` over a payload with no creator data
fails instead of yielding the mapped record. -/
theorem spec_C4_counterexample :
    extract_from_embed_url (.ok (200, some oembedJson)) = some oembedJson ∧
    resultErrorMsg (get_reel_creator "https://instagram.com/p/ABC123/" "" parseNone idStr) =
      some "Could not extract creator information" :=
  ⟨rfl, by decide⟩

/-- C4 (amended): the oEmbed helper returns the parsed payload unchanged
on HTTP 200 (no field mapping) and none otherwise, but `get_reel_creator`
never consults it (the call is commented out): extraction is decided by
the fetched HTML alone. -/
theorem spec_C4 :
    (∀ j : Option Json, extract_from_embed_url (.ok (200, j)) = j) ∧
    (∀ (st : Nat) (j : Option Json), st ≠ 200 →
        extract_from_embed_url (.ok (st, j)) = none) ∧
    (extract_from_embed_url (.error ()) = none) ∧
    (resultErrorMsg (get_reel_creator "https://instagram.com/p/ABC123/" "" parseNone idStr) =
      some "Could not extract creator information") := by
  refine ⟨fun j => rfl, ?_, rfl, by decide⟩
  intro st j h
  simp [extract_from_embed_url, h]

/-- Witness for `spec_C4` at a non-200 status. -/
theorem spec_C4_witness :
    extract_from_embed_url (.ok (404, some oembedJson)) = none :=
  spec_C4.2.1 404 (some oembedJson) (by decide)

/-- C5 counterexample: the primary script-pattern strategy has no
brand-name check — a page whose only match is an owner block with
username `instagram` yields a success record with that username. -/
theorem spec_C5_counterexample :
    resultIsOk
        (get_reel_creator "https://instagram.com/p/ABC/" ownerInstaContent parseNone idStr) =
      true ∧
    resultUsernameStr
        (get_reel_creator "https://instagram.com/p/ABC/" ownerInstaContent parseNone idStr) =
      some "instagram" := by
  refine ⟨by decide, by decide⟩

/-- C5 (amended): the case-insensitive brand-name rejection lives in the
looser-pattern strategy (and the metadata strategy), not in the primary
script-pattern list: no looser-pattern result ever carries the username
`instagram`, and a page whose only match is a looser-pattern pair with
that username falls through to the generic failure. -/
theorem spec_C5 :
    (∀ (c : List Char) (pr : String × String), looserPairsGood c = some pr →
        pyLower pr.2 ≠ "instagram" ∧ pr.1 ≠ "" ∧ pr.2 ≠ "") ∧
    (resultErrorMsg (get_reel_creator "https://example.org/x" looserInstaContent parseNone idStr) =
      some "Could not extract creator information") := by
  constructor
  · intro c pr h
    have hg := looserPairsGood_some c pr h
    simp only [looserGuard, Bool.and_eq_true, bne_iff_ne] at hg
    exact ⟨hg.2, hg.1.1, hg.1.2⟩
  · decide

/-- Witness for `spec_C5`: a looser-pattern result with an ordinary
username satisfies the guarantees. -/
theorem spec_C5_witness :
    pyLower "bob" ≠ "instagram" ∧ "9" ≠ "" ∧ "bob" ≠ "" :=
  spec_C5.1 (String.data looserBobContent) ("9", "bob") (by decide)

/-- C6: the thumbnail is taken from the first matching meta-image pattern
in the fixed order `og:image`, `twitter:image`, `image_src`, and every
success record — whichever strategy produced it — carries exactly this
`findThumbnail` value. -/
theorem spec_C6 :
    (∀ (c u : List Char), searchCap1 thumbPatOg c = some u →
        findThumbnail c = some (String.mk u)) ∧
    (∀ (c u : List Char), searchCap1 thumbPatOg c = none →
        searchCap1 thumbPatTw c = some u →
        findThumbnail c = some (String.mk u)) ∧
    (∀ c : List Char, searchCap1 thumbPatOg c = none →
        searchCap1 thumbPatTw c = none →
        findThumbnail c = (searchCap1 thumbPatImgSrc c).map String.mk) ∧
    (∀ (url content : String) (parse : String → Option Json) (unescape : String → String),
        resultThumbField (get_reel_creator url content parse unescape) = none ∨
        resultThumbField (get_reel_creator url content parse unescape) =
          some (findThumbnail content.data)) := by
  refine ⟨?_, ?_, ?_, ?_⟩
  · intro c u h
    simp [findThumbnail, firstSearchCap, h]
  · intro c u h1 h2
    simp [findThumbnail, firstSearchCap, h1, h2]
  · intro c h1 h2
    cases h3 : searchCap1 thumbPatImgSrc c <;>
      simp [findThumbnail, firstSearchCap, h1, h2, h3]
  · intro url content parse unescape
    cases hres : get_reel_creator url content parse unescape with
    | ok r =>
      right
      have := (get_reel_creator_ok url content parse unescape r hres).2.1
      simp [resultThumbField, this]
    | error msg => left; rfl

/-- Witness for `spec_C6`: `og:image` wins over a later `twitter:image`;
`twitter:image` is used when `og:image` is absent; and a concrete success
record carries the `findThumbnail` value. -/
theorem spec_C6_witness :
    findThumbnail
        (L ("<meta property=\"og:image\" content=\"http://x/y.jpg\">" ++
            "<meta name=\"twitter:image\" content=\"http://z\">")) =
      some (String.mk (L "http://x/y.jpg")) ∧
    findThumbnail (L "<meta name=\"twitter:image\" content=\"http://z\">") =
      some (String.mk (L "http://z")) ∧
    (resultThumbField (get_reel_creator "https://instagram.com/p/ABC/" ownerContent
        parseNone idStr) = none ∨
     resultThumbField (get_reel_creator "https://instagram.com/p/ABC/" ownerContent
        parseNone idStr) = some (findThumbnail (String.data ownerContent))) :=
  ⟨spec_C6.1 _ (L "http://x/y.jpg") (by decide),
   spec_C6.2.1 _ (L "http://z") (by decide) (by decide),
   spec_C6.2.2.2 "https://instagram.com/p/ABC/" ownerContent parseNone idStr⟩

/-- C7: `analyze_content` of the empty caption reports no hashtags, no
mentions and no `line_count` at all; for any non-empty caption
`line_count` is the newline count of the decoded caption plus one. -/
theorem spec_C7 :
    ∀ unescape : String → String,
      ((analyze_content unescape "").hashtags = none ∧
       (analyze_content unescape "").hashtag_count = none ∧
       (analyze_content unescape "").mentions = none ∧
       (analyze_content unescape "").mention_count = none ∧
       (analyze_content unescape "").line_count = none) ∧
      (∀ caption : String, caption ≠ "" →
        (analyze_content unescape caption).line_count =
          some ((unescape caption).data.count (Char.ofNat 10) + 1)) := by
  intro unescape
  constructor
  · refine ⟨?_, ?_, ?_, ?_, ?_⟩ <;> simp [analyze_content]
  · intro caption hc
    have hbne : (caption != "") = true := bne_iff_ne.mpr hc
    simp [analyze_content, hbne]

/-- Witness for `spec_C7` at a concrete two-line caption. -/
theorem spec_C7_witness :
    "a\nb" ≠ "" ∧
    (analyze_content idStr "a\nb").line_count =
      some ((idStr "a\nb").data.count (Char.ofNat 10) + 1) :=
  ⟨by decide, (spec_C7 idStr).2 "a\nb" (by decide)⟩

/-- The post loop appends only for processed posts and stops at the first
post completing with index at least 100: at most
`posts.length + (101 - min idx 100)` records accumulate. -/
lemma scrapeLoop_posts_le (items : List PItem) : ∀ (idx : Nat) (posts : List PostData)
    (reels : List ReelData) (pc rc : Nat),
    (scrapeLoop items idx posts reels pc rc).posts.length ≤
      posts.length + (101 - min idx 100) := by
  induction items with
  | nil =>
    intro idx posts reels pc rc
    simp [scrapeLoop]
  | cons item rest ih =>
    intro idx posts reels pc rc
    cases item with
    | bodyRaises =>
      simp only [scrapeLoop]
      exact le_trans (ih (idx + 1) posts reels pc rc) (by omega)
    | extractFails =>
      simp only [scrapeLoop]
      by_cases h : idx ≥ 100
      · simp only [if_pos h]
        exact Nat.le_add_right _ _
      · simp only [if_neg h]
        exact le_trans (ih (idx + 1) posts reels pc rc) (by omega)
    | good p =>
      simp only [scrapeLoop]
      by_cases h : idx ≥ 100
      · simp only [if_pos h, List.length_append, List.length_singleton]
        omega
      · simp only [if_neg h]
        refine le_trans
          (ih (idx + 1) (posts ++ [extract_post_data p])
            (if p.is_video then reels ++ [mkReelData (extract_post_data p)] else reels)
            (pc + 1) (if p.is_video then rc + 1 else rc)) ?_
        simp only [List.length_append, List.length_singleton]
        omega

/-- C8 (code bug): the loop is meant to cap at 100 posts (the source's
own comment and log message), but the break sits after the append, so a
feed of 102 posts yields 101 records; the general bound is 101, not 100. -/
theorem spec_C8 :
    (∀ items : List PItem, (scrapeLoop items 0 [] [] 0 0).posts.length ≤ 101) ∧
    (scrapeLoop (sampleItems 102) 0 [] [] 0 0).posts.length = 101 := by
  constructor
  · intro items
    simpa using scrapeLoop_posts_le items 0 [] [] 0 0
  · decide

/-- A completed JSON walk of `fetch_instagram_post` yields only the
`found` or `not_found` status. -/
lemma web_profile_nav_status (data : Json) (r : PostResult)
    (h : web_profile_nav data = .ok r) :
    r.status = "found" ∨ r.status = "not_found" := by
  unfold web_profile_nav at h
  repeat' split at h
  all_goals (try (cases h; simp))
  all_goals simp_all

/-- C9: every per-item error is caught at the item boundary and becomes
the per-item `error` status — a raising fetch yields the `error` row, a
batch produces exactly one row per item whatever the outcomes, and a
raising post iteration merely advances the scraper loop. -/
theorem spec_C9 :
    (∀ response, (fetch_instagram_post response).status ∈
        (["found", "not_found", "error"] : List String)) ∧
    ((fetch_instagram_post (.error ())).status = "error") ∧
    (∀ items, (process_all_profiles_rows items).length = items.length) ∧
    (∀ (purl uname : String), (batch_item_row purl uname (.error ())).status = "error") ∧
    (∀ (purl uname : String) (res : PostResult),
        (batch_item_row purl uname (.ok res)).status = res.status) ∧
    (∀ (rest : List PItem) (idx : Nat) (posts : List PostData) (reels : List ReelData)
        (pc rc : Nat),
        scrapeLoop (PItem.bodyRaises :: rest) idx posts reels pc rc =
          scrapeLoop rest (idx + 1) posts reels pc rc) := by
  refine ⟨?_, rfl, ?_, fun _ _ => rfl, fun _ _ _ => rfl, fun _ _ _ _ _ _ => rfl⟩
  · intro response
    cases response with
    | error e => simp [fetch_instagram_post]
    | ok pair =>
      obtain ⟨st, body⟩ := pair
      by_cases hst : st = 200
      · cases body with
        | none => simp [fetch_instagram_post, hst]
        | some data =>
          cases hnav : web_profile_nav data with
          | error e => simp [fetch_instagram_post, hst, hnav]
          | ok r =>
            rcases web_profile_nav_status data r hnav with hs | hs <;>
              simp [fetch_instagram_post, hst, hnav, hs]
      · simp [fetch_instagram_post, hst]
  · intro items
    simp [process_all_profiles_rows]

/-- The loop invariant behind C10: counters track lengths and the reel
list is exactly the video posts in emission order, mirrored through
`mkReelData`. -/
lemma scrapeLoop_invariant (items : List PItem) : ∀ (idx : Nat) (posts : List PostData)
    (reels : List ReelData) (pc rc : Nat),
    pc = posts.length → rc = reels.length →
    reels = (posts.filter (fun d => d.is_video)).map mkReelData →
    ((scrapeLoop items idx posts reels pc rc).post_count =
        (scrapeLoop items idx posts reels pc rc).posts.length ∧
     (scrapeLoop items idx posts reels pc rc).reel_count =
        (scrapeLoop items idx posts reels pc rc).reels.length ∧
     (scrapeLoop items idx posts reels pc rc).reels =
        ((scrapeLoop items idx posts reels pc rc).posts.filter
          (fun d => d.is_video)).map mkReelData) := by
  induction items with
  | nil =>
    intro idx posts reels pc rc hpc hrc hinv
    simp only [scrapeLoop]
    exact ⟨hpc, hrc, hinv⟩
  | cons item rest ih =>
    intro idx posts reels pc rc hpc hrc hinv
    cases item with
    | bodyRaises =>
      simp only [scrapeLoop]
      exact ih (idx + 1) posts reels pc rc hpc hrc hinv
    | extractFails =>
      simp only [scrapeLoop]
      by_cases h : idx ≥ 100
      · simp only [if_pos h]
        exact ⟨hpc, hrc, hinv⟩
      · simp only [if_neg h]
        exact ih (idx + 1) posts reels pc rc hpc hrc hinv
    | good p =>
      have hvid : (extract_post_data p).is_video = p.is_video := rfl
      have hinv' : (if p.is_video then
            reels ++ [mkReelData (extract_post_data p)] else reels) =
          ((posts ++ [extract_post_data p]).filter (fun d => d.is_video)).map
            mkReelData := by
        rw [List.filter_append, List.map_append, ← hinv]
        by_cases hv : p.is_video <;>
          simp [List.filter_singleton, hvid, hv]
      have hpc' : pc + 1 = (posts ++ [extract_post_data p]).length := by
        simp [hpc]
      have hrc' : (if p.is_video then rc + 1 else rc) =
          (if p.is_video then reels ++ [mkReelData (extract_post_data p)]
           else reels).length := by
        by_cases hv : p.is_video <;> simp [hv, hrc]
      simp only [scrapeLoop]
      by_cases h : idx ≥ 100
      · simp only [if_pos h]
        exact ⟨hpc', hrc', hinv'⟩
      · simp only [if_neg h]
        exact ih (idx + 1) _ _ _ _ hpc' hrc' hinv'

/-- C10: in every result of `scrape_instagram_profile` — success,
private-unauthenticated, and failure — `total_posts` and `total_reels`
equal the lengths of `all_posts` and `reels`, and `reels` is exactly the
video posts of `all_posts` (in order) mirrored through `mkReelData`, so
every reel entry mirrors an emitted post whose `is_video` flag is true. -/
theorem spec_C10 :
    ∀ (username : String) (profileFetch : Except String IGProfile)
      (authenticated : Bool) (items : List PItem),
      (scrape_instagram_profile username profileFetch authenticated items).total_posts =
        (scrape_instagram_profile username profileFetch authenticated items).all_posts.length ∧
      (scrape_instagram_profile username profileFetch authenticated items).total_reels =
        (scrape_instagram_profile username profileFetch authenticated items).reels.length ∧
      (scrape_instagram_profile username profileFetch authenticated items).reels =
        ((scrape_instagram_profile username profileFetch authenticated
            items).all_posts.filter (fun d => d.is_video)).map mkReelData := by
  intro username profileFetch authenticated items
  cases profileFetch with
  | error msg => simp [scrape_instagram_profile]
  | ok profile =>
    by_cases hp : (profile.is_private && !authenticated) = true
    · simp [scrape_instagram_profile, hp]
    · have hinv := scrapeLoop_invariant items 0 [] [] 0 0 rfl rfl (by simp)
      simp only [scrape_instagram_profile, hp, Bool.false_eq_true, if_false]
      exact hinv

end Swipit
